import Mathlib

/-!
Shallow embedding of the job-status-listener service (`main.go`).

The service accepts job status reports over HTTP and republishes them to a
message broker.  The fallible collaborators (`publisher.PublishJobUpdate`,
`publisher.Reconnect`, JSON body decoding) are modelled as oracles: a
function `Nat → Option String` gives the outcome of the n-th call made
during one request (`none` is success, `some e` is failure with error
message `e`), and body decoding is an `Except String` value supplied by the
caller.  Each modelled function additionally returns the trace of publisher
calls it made, so that invocation counts and the concrete messages handed
to `publish` are observable.
-/

/-- Canonical job states: the values of `messaging.JobState` that
`getState` in `main.go` can return on success (`SubmittedState`,
`RunningState`, `SucceededState`, `FailedState`). -/
inductive JobState where
  | Submitted
  | Running
  | Succeeded
  | Failed
deriving DecidableEq, Repr

/-- The outbound `messaging.UpdateMessage` built by `update` in `main.go`,
with the embedded `model.Job` flattened to the only field `update` sets on
it, its `InvocationID`. -/
structure UpdateMessage where
  invocationID : String
  state : JobState
  message : String
  sender : String
deriving DecidableEq, Repr

/-- An observable call made by `update` on its `JobUpdatePublisher`:
either a `PublishJobUpdate` of a concrete message or a `Reconnect`, each
recorded together with its outcome (`none` is success, `some e` failure). -/
inductive Event where
  | publish (m : UpdateMessage) (r : Option String)
  | reconnect (r : Option String)
deriving DecidableEq, Repr

/-- Number of `PublishJobUpdate` calls in a trace. -/
def countPublish (tr : List Event) : Nat :=
  (tr.filter (fun e => match e with | Event.publish _ _ => true | _ => false)).length

/-- Number of `Reconnect` calls in a trace. -/
def countReconnect (tr : List Event) : Nat :=
  (tr.filter (fun e => match e with | Event.reconnect _ => true | _ => false)).length

/-- Embedding of `update` from `main.go` (lines 38-72).  `pubRes n` is the
outcome of the (n+1)-st `PublishJobUpdate` call and `recRes n` the outcome
of the (n+1)-st `Reconnect` call made during this invocation.  Returns the
Go function's result (`Except.ok` for `(updateMessage, nil)`,
`Except.error e` for `(nil, err)`) together with the trace of publisher
calls.  The `ctx` argument is opaque in the source and is dropped. -/
def update (pubRes recRes : Nat → Option String) (state : JobState)
    (jobID hostname msg : String) :
    Except String UpdateMessage × List Event :=
  let updateMessage : UpdateMessage := ⟨jobID, state, msg, hostname⟩
  match pubRes 0 with
  | none =>
      (Except.ok updateMessage, [Event.publish updateMessage none])
  | some e1 =>
      match recRes 0 with
      | some re =>
          (Except.error re,
            [Event.publish updateMessage (some e1), Event.reconnect (some re)])
      | none =>
          match pubRes 1 with
          | none =>
              (Except.ok updateMessage,
                [Event.publish updateMessage (some e1), Event.reconnect none,
                  Event.publish updateMessage none])
          | some e2 =>
              (Except.error e2,
                [Event.publish updateMessage (some e1), Event.reconnect none,
                  Event.publish updateMessage (some e2)])

/-- Model of Go `strings.ToLower` as the per-character ASCII case mapping
(the two functions agree on all ASCII input, which covers every string the
`getState` switch can match). -/
def strToLower (s : String) : String := ⟨s.data.map Char.toLower⟩

/-- Embedding of `getState` from `main.go` (lines 91-106): a `switch` on
the lowercased input, with the Go error `fmt.Errorf("Unknown job state: %s",
state)` embedded as the corresponding string. -/
def getState (state : String) : Except String JobState :=
  let s := strToLower state
  if s = "submitted" then Except.ok JobState.Submitted
  else if s = "running" then Except.ok JobState.Running
  else if s = "completed" then Except.ok JobState.Succeeded
  else if s = "succeeded" then Except.ok JobState.Succeeded
  else if s = "failed" then Except.ok JobState.Failed
  else Except.error ("Unknown job state: " ++ state)

/-- Request body of `POST /{uuid}/status` (`MessagePost` in `main.go`). -/
structure MessagePost where
  Hostname : String
  Message : String
  State : String
deriving DecidableEq, Repr

/-- Request body of `POST /status/batch` (`MessagePostWithUUIDs` in
`main.go`): the job identifier travels in the body as `job_uuid`. -/
structure MessagePostWithUUIDs where
  JobUUID : String
  Hostname : String
  Message : String
  State : String
deriving DecidableEq, Repr

/-- Body of the HTTP response written by a handler: either the JSON object
with the single `error` field, or the echoed update message. -/
inductive ResponseBody where
  | errorField (e : String)
  | updateEcho (m : UpdateMessage)
deriving DecidableEq, Repr

/-- Observable outcome of one handler invocation: HTTP status code,
response body, the trace of publisher calls made, and whether the handler
reached `log.Fatal` (which terminates the whole process). -/
structure HandlerOutcome where
  status : Nat
  body : ResponseBody
  events : List Event
  fatal : Bool
deriving DecidableEq, Repr

/-- Embedding of `postUpdate` from `main.go` (lines 156-196).  `jobID` is
the `{uuid}` path variable; `decoded` is the oracle outcome of
`json.NewDecoder(r.Body).Decode` (`Except.error e` when decoding fails
with error message `e`).  A status of 200 models the success path, where
the Go handler never calls `WriteHeader` and `net/http` defaults to 200. -/
def postUpdate (jobID : String) (decoded : Except String MessagePost)
    (pubRes recRes : Nat → Option String) : HandlerOutcome :=
  match decoded with
  | Except.error e => ⟨400, ResponseBody.errorField e, [], false⟩
  | Except.ok um =>
      match getState um.State with
      | Except.error e => ⟨400, ResponseBody.errorField e, [], false⟩
      | Except.ok st =>
          match update pubRes recRes st jobID um.Hostname um.Message with
          | (Except.error e, tr) => ⟨400, ResponseBody.errorField e, tr, true⟩
          | (Except.ok msg, tr) => ⟨200, ResponseBody.updateEcho msg, tr, false⟩

/-- Embedding of `postBatchStatus` from `main.go` (lines 108-154).  The
job identifier is taken verbatim from the decoded body's `JobUUID` field
(line 125); nothing re-validates it against the UUID pattern. -/
def postBatchStatus (decoded : Except String MessagePostWithUUIDs)
    (pubRes recRes : Nat → Option String) : HandlerOutcome :=
  match decoded with
  | Except.error e => ⟨400, ResponseBody.errorField e, [], false⟩
  | Except.ok um =>
      match getState um.State with
      | Except.error e => ⟨400, ResponseBody.errorField e, [], false⟩
      | Except.ok st =>
          match update pubRes recRes st um.JobUUID um.Hostname um.Message with
          | (Except.error e, tr) => ⟨400, ResponseBody.errorField e, tr, true⟩
          | (Except.ok msg, tr) => ⟨200, ResponseBody.updateEcho msg, tr, false⟩

/-- C3: if the first publish succeeds, `update` returns the constructed
message with no error, publish was invoked exactly once and reconnect zero
times. -/
theorem update_first_publish_success (pubRes recRes : Nat → Option String)
    (state : JobState) (jobID hostname msg : String)
    (h : pubRes 0 = none) :
    (update pubRes recRes state jobID hostname msg).1 =
      Except.ok (⟨jobID, state, msg, hostname⟩ : UpdateMessage) ∧
    countPublish (update pubRes recRes state jobID hostname msg).2 = 1 ∧
    countReconnect (update pubRes recRes state jobID hostname msg).2 = 0 := by
  simp [update, h, countPublish, countReconnect]

/-- Witness for C3 at a concrete publisher whose publishes always
succeed. -/
theorem update_first_publish_success_witness :
    (update (fun _ => none) (fun _ => none) JobState.Running "job" "host" "msg").1 =
      Except.ok (⟨"job", JobState.Running, "msg", "host"⟩ : UpdateMessage) ∧
    countPublish (update (fun _ => none) (fun _ => none) JobState.Running
      "job" "host" "msg").2 = 1 ∧
    countReconnect (update (fun _ => none) (fun _ => none) JobState.Running
      "job" "host" "msg").2 = 0 :=
  update_first_publish_success (fun _ => none) (fun _ => none)
    JobState.Running "job" "host" "msg" rfl

/-- C1: if the first publish fails and reconnect succeeds, `update` makes
exactly one more publish attempt: it returns the constructed message when
that second publish succeeds and the second publish's error when it fails;
in both cases reconnect ran exactly once and publish exactly twice. -/
theorem update_retry_after_reconnect (pubRes recRes : Nat → Option String)
    (state : JobState) (jobID hostname msg : String) (e1 : String)
    (h1 : pubRes 0 = some e1) (h2 : recRes 0 = none) :
    countPublish (update pubRes recRes state jobID hostname msg).2 = 2 ∧
    countReconnect (update pubRes recRes state jobID hostname msg).2 = 1 ∧
    (pubRes 1 = none →
      (update pubRes recRes state jobID hostname msg).1 =
        Except.ok (⟨jobID, state, msg, hostname⟩ : UpdateMessage)) ∧
    (∀ e2, pubRes 1 = some e2 →
      (update pubRes recRes state jobID hostname msg).1 = Except.error e2) := by
  cases h3 : pubRes 1 <;>
    simp [update, h1, h2, h3, countPublish, countReconnect]

/-- Witness for C1 at a concrete publisher whose first publish fails with
"boom" and whose reconnect and second publish succeed. -/
theorem update_retry_after_reconnect_witness :
    countPublish (update (fun n => if n = 0 then some "boom" else none)
      (fun _ => none) JobState.Running "job" "host" "msg").2 = 2 ∧
    countReconnect (update (fun n => if n = 0 then some "boom" else none)
      (fun _ => none) JobState.Running "job" "host" "msg").2 = 1 ∧
    ((fun n => if n = 0 then some "boom" else none) 1 = none →
      (update (fun n => if n = 0 then some "boom" else none)
        (fun _ => none) JobState.Running "job" "host" "msg").1 =
        Except.ok (⟨"job", JobState.Running, "msg", "host"⟩ : UpdateMessage)) ∧
    (∀ e2, (fun n => if n = 0 then some "boom" else none) 1 = some e2 →
      (update (fun n => if n = 0 then some "boom" else none)
        (fun _ => none) JobState.Running "job" "host" "msg").1 =
        Except.error e2) :=
  update_retry_after_reconnect (fun n => if n = 0 then some "boom" else none)
    (fun _ => none) JobState.Running "job" "host" "msg" "boom" rfl rfl

/-- C2: if the first publish fails and the reconnect also fails, `update`
returns the reconnect error; publish ran exactly once (no second attempt)
and reconnect exactly once. -/
theorem update_reconnect_failure (pubRes recRes : Nat → Option String)
    (state : JobState) (jobID hostname msg : String) (e1 re : String)
    (h1 : pubRes 0 = some e1) (h2 : recRes 0 = some re) :
    (update pubRes recRes state jobID hostname msg).1 = Except.error re ∧
    countPublish (update pubRes recRes state jobID hostname msg).2 = 1 ∧
    countReconnect (update pubRes recRes state jobID hostname msg).2 = 1 := by
  simp [update, h1, h2, countPublish, countReconnect]

/-- Witness for C2 at a concrete publisher whose publish fails with "boom"
and whose reconnect fails with "down". -/
theorem update_reconnect_failure_witness :
    (update (fun _ => some "boom") (fun _ => some "down") JobState.Failed
      "job" "host" "msg").1 = Except.error "down" ∧
    countPublish (update (fun _ => some "boom") (fun _ => some "down")
      JobState.Failed "job" "host" "msg").2 = 1 ∧
    countReconnect (update (fun _ => some "boom") (fun _ => some "down")
      JobState.Failed "job" "host" "msg").2 = 1 :=
  update_reconnect_failure (fun _ => some "boom") (fun _ => some "down")
    JobState.Failed "job" "host" "msg" "boom" "down" rfl rfl

/-- C5: every message `update` hands to publish is the one constructed
from its arguments (invocation ID from `jobID`, state, message from `msg`,
sender from `hostname`), so the message of a second publish attempt is
identical to that of the first. -/
theorem update_message_integrity (pubRes recRes : Nat → Option String)
    (state : JobState) (jobID hostname msg : String)
    (m : UpdateMessage) (r : Option String)
    (hm : Event.publish m r ∈ (update pubRes recRes state jobID hostname msg).2) :
    m = (⟨jobID, state, msg, hostname⟩ : UpdateMessage) := by
  cases h1 : pubRes 0 <;> cases h2 : recRes 0 <;> cases h3 : pubRes 1 <;>
    simp [update, h1, h2, h3] at hm <;> tauto

/-- Witness for C5: in the retry scenario the second publish event is in
the trace and its message is the constructed one. -/
theorem update_message_integrity_witness :
    Event.publish (⟨"job", JobState.Running, "msg", "host"⟩ : UpdateMessage)
        (some "boom2") ∈
      (update (fun n => if n = 0 then some "boom" else some "boom2")
        (fun _ => none) JobState.Running "job" "host" "msg").2 ∧
    (⟨"job", JobState.Running, "msg", "host"⟩ : UpdateMessage) =
      (⟨"job", JobState.Running, "msg", "host"⟩ : UpdateMessage) :=
  ⟨by simp [update], update_message_integrity
    (fun n => if n = 0 then some "boom" else some "boom2") (fun _ => none)
    JobState.Running "job" "host" "msg"
    (⟨"job", JobState.Running, "msg", "host"⟩ : UpdateMessage) (some "boom2")
    (by simp [update])⟩

/-- C4: `getState` lowercases its input and maps "submitted" to Submitted,
"running" to Running, "completed" and "succeeded" to Succeeded, and
"failed" to Failed, case-insensitively; every other string yields the
unknown-state error naming the original input and no canonical state. -/
theorem getState_characterization (s : String) :
    (getState s = Except.ok JobState.Submitted ↔ strToLower s = "submitted") ∧
    (getState s = Except.ok JobState.Running ↔ strToLower s = "running") ∧
    (getState s = Except.ok JobState.Succeeded ↔
      (strToLower s = "completed" ∨ strToLower s = "succeeded")) ∧
    (getState s = Except.ok JobState.Failed ↔ strToLower s = "failed") ∧
    (strToLower s ∉
        (["submitted", "running", "completed", "succeeded", "failed"] :
          List String) →
      getState s = Except.error ("Unknown job state: " ++ s)) := by
  unfold getState
  simp only []
  split_ifs with h1 h2 h3 h4 h5 <;> simp_all

/-- Witness for C4: concrete evaluations through the characterization,
including case-insensitivity and the rejection of "pending". -/
theorem getState_characterization_witness :
    getState "SUBMITTED" = Except.ok JobState.Submitted ∧
    getState "Completed" = Except.ok JobState.Succeeded ∧
    getState "succeeded" = Except.ok JobState.Succeeded ∧
    getState "pending" = Except.error ("Unknown job state: " ++ "pending") :=
  ⟨(getState_characterization "SUBMITTED").1.mpr (by decide),
    (getState_characterization "Completed").2.2.1.mpr (Or.inl (by decide)),
    (getState_characterization "succeeded").2.2.1.mpr (Or.inr (by decide)),
    (getState_characterization "pending").2.2.2.2 (by decide)⟩

/-- C6: on either endpoint, when the body fails to decode or its state
string is not recognized, the handler answers with a 400 error response
and the publisher is never invoked (the trace of publisher calls is
empty). -/
theorem handlers_no_publish_on_invalid (jobID : String)
    (dec1 : Except String MessagePost)
    (dec2 : Except String MessagePostWithUUIDs)
    (pubRes recRes : Nat → Option String)
    (h1 : (∃ e, dec1 = Except.error e) ∨
      (∃ um, dec1 = Except.ok um ∧ ∃ e, getState um.State = Except.error e))
    (h2 : (∃ e, dec2 = Except.error e) ∨
      (∃ um, dec2 = Except.ok um ∧ ∃ e, getState um.State = Except.error e)) :
    ((postUpdate jobID dec1 pubRes recRes).events = [] ∧
      (postUpdate jobID dec1 pubRes recRes).status = 400 ∧
      ∃ e, (postUpdate jobID dec1 pubRes recRes).body =
        ResponseBody.errorField e) ∧
    ((postBatchStatus dec2 pubRes recRes).events = [] ∧
      (postBatchStatus dec2 pubRes recRes).status = 400 ∧
      ∃ e, (postBatchStatus dec2 pubRes recRes).body =
        ResponseBody.errorField e) := by
  constructor
  · rcases h1 with ⟨e, he⟩ | ⟨um, hum, e, he⟩
    · simp [postUpdate, he]
    · simp [postUpdate, hum, he]
  · rcases h2 with ⟨e, he⟩ | ⟨um, hum, e, he⟩
    · simp [postBatchStatus, he]
    · simp [postBatchStatus, hum, he]

/-- Witness for C6: a decode failure on the single-update endpoint and an
unrecognized state "pending" on the batch endpoint. -/
theorem handlers_no_publish_on_invalid_witness :
    ((postUpdate "11111111-1111-1111-1111-111111111111"
        (Except.error "unexpected EOF") (fun _ => none) (fun _ => none)).events = [] ∧
      (postUpdate "11111111-1111-1111-1111-111111111111"
        (Except.error "unexpected EOF") (fun _ => none) (fun _ => none)).status = 400 ∧
      ∃ e, (postUpdate "11111111-1111-1111-1111-111111111111"
        (Except.error "unexpected EOF") (fun _ => none) (fun _ => none)).body =
        ResponseBody.errorField e) ∧
    ((postBatchStatus (Except.ok ⟨"u1", "h1", "m1", "pending"⟩)
        (fun _ => none) (fun _ => none)).events = [] ∧
      (postBatchStatus (Except.ok ⟨"u1", "h1", "m1", "pending"⟩)
        (fun _ => none) (fun _ => none)).status = 400 ∧
      ∃ e, (postBatchStatus (Except.ok ⟨"u1", "h1", "m1", "pending"⟩)
        (fun _ => none) (fun _ => none)).body = ResponseBody.errorField e) :=
  handlers_no_publish_on_invalid "11111111-1111-1111-1111-111111111111"
    (Except.error "unexpected EOF") (Except.ok ⟨"u1", "h1", "m1", "pending"⟩)
    (fun _ => none) (fun _ => none)
    (Or.inl ⟨"unexpected EOF", rfl⟩)
    (Or.inr ⟨⟨"u1", "h1", "m1", "pending"⟩, rfl,
      "Unknown job state: " ++ "pending", by rfl⟩)

/-- C7 counterexample: on a terminal (double) publish failure both HTTP
entry points reach `log.Fatal` (main.go lines 151 and 193), so it is false
that one endpoint merely returns an error response while the other
terminates the process: at this concrete failing input both handlers
return a 400 error response and terminate the process. -/
theorem handlers_fatal_symmetry_counterexample :
    (postUpdate "11111111-1111-1111-1111-111111111111"
        (Except.ok ⟨"h1", "m1", "running"⟩)
        (fun _ => some "pub down") (fun _ => none)).fatal = true ∧
    (postBatchStatus (Except.ok ⟨"u1", "h1", "m1", "running"⟩)
        (fun _ => some "pub down") (fun _ => none)).fatal = true := by
  constructor <;> rfl

/-- C7 amended: on a terminal (double) publish failure the two HTTP entry
points behave alike: each writes a 400 response carrying the second
publish's error and then terminates the entire process via `log.Fatal`. -/
theorem handlers_fatal_symmetry (jobID : String)
    (um1 : MessagePost) (um2 : MessagePostWithUUIDs)
    (pubRes recRes : Nat → Option String)
    (st1 st2 : JobState) (e1 e2 : String)
    (hs1 : getState um1.State = Except.ok st1)
    (hs2 : getState um2.State = Except.ok st2)
    (hp0 : pubRes 0 = some e1) (hr0 : recRes 0 = none)
    (hp1 : pubRes 1 = some e2) :
    ((postUpdate jobID (Except.ok um1) pubRes recRes).status = 400 ∧
      (postUpdate jobID (Except.ok um1) pubRes recRes).body =
        ResponseBody.errorField e2 ∧
      (postUpdate jobID (Except.ok um1) pubRes recRes).fatal = true) ∧
    ((postBatchStatus (Except.ok um2) pubRes recRes).status = 400 ∧
      (postBatchStatus (Except.ok um2) pubRes recRes).body =
        ResponseBody.errorField e2 ∧
      (postBatchStatus (Except.ok um2) pubRes recRes).fatal = true) := by
  constructor
  · simp [postUpdate, hs1, update, hp0, hr0, hp1]
  · simp [postBatchStatus, hs2, update, hp0, hr0, hp1]

/-- Witness for the amended C7 at a concrete double publish failure. -/
theorem handlers_fatal_symmetry_witness :
    ((postUpdate "11111111-1111-1111-1111-111111111111"
        (Except.ok ⟨"h1", "m1", "running"⟩)
        (fun _ => some "pub down") (fun _ => none)).status = 400 ∧
      (postUpdate "11111111-1111-1111-1111-111111111111"
        (Except.ok ⟨"h1", "m1", "running"⟩)
        (fun _ => some "pub down") (fun _ => none)).body =
        ResponseBody.errorField "pub down" ∧
      (postUpdate "11111111-1111-1111-1111-111111111111"
        (Except.ok ⟨"h1", "m1", "running"⟩)
        (fun _ => some "pub down") (fun _ => none)).fatal = true) ∧
    ((postBatchStatus (Except.ok ⟨"u1", "h1", "m1", "running"⟩)
        (fun _ => some "pub down") (fun _ => none)).status = 400 ∧
      (postBatchStatus (Except.ok ⟨"u1", "h1", "m1", "running"⟩)
        (fun _ => some "pub down") (fun _ => none)).body =
        ResponseBody.errorField "pub down" ∧
      (postBatchStatus (Except.ok ⟨"u1", "h1", "m1", "running"⟩)
        (fun _ => some "pub down") (fun _ => none)).fatal = true) :=
  handlers_fatal_symmetry "11111111-1111-1111-1111-111111111111"
    ⟨"h1", "m1", "running"⟩ ⟨"u1", "h1", "m1", "running"⟩
    (fun _ => some "pub down") (fun _ => none)
    JobState.Running JobState.Running "pub down" "pub down"
    (by rfl) (by rfl) rfl rfl rfl

/-- Any error returned by `update` originates from one of the publisher
oracles: it is a publish error or a reconnect error. -/
theorem update_error_origin (pubRes recRes : Nat → Option String)
    (state : JobState) (jobID hostname msg e : String)
    (h : (update pubRes recRes state jobID hostname msg).1 = Except.error e) :
    (∃ n, pubRes n = some e) ∨ (∃ n, recRes n = some e) := by
  cases h0 : pubRes 0 with
  | none => simp [update, h0] at h
  | some e1 =>
      cases hr : recRes 0 with
      | some re =>
          simp [update, h0, hr] at h
          exact Or.inr ⟨0, by rw [hr, h]⟩
      | none =>
          cases h1 : pubRes 1 with
          | none => simp [update, h0, hr, h1] at h
          | some e2 =>
              simp [update, h0, hr, h1] at h
              exact Or.inl ⟨1, by rw [h1, h]⟩

/-- The unknown-state error message is never the empty string. -/
theorem unknownStateError_ne_empty (s : String) :
    ("Unknown job state: " ++ s) ≠ "" := by
  intro h
  have h2 := congrArg String.length h
  rw [String.length_append] at h2
  have h3 : ("Unknown job state: " : String).length = 19 := rfl
  have h4 : ("" : String).length = 0 := rfl
  omega

/-- Every error `getState` can return is nonempty. -/
theorem getState_error_ne_empty (s e : String)
    (h : getState s = Except.error e) : e ≠ "" := by
  unfold getState at h
  simp only [] at h
  split_ifs at h
  simp at h
  rw [← h]
  exact unknownStateError_ne_empty s

/-- Response contract of `postUpdate`: every outcome is either a 400 with
a nonempty error field or a 200 echoing the update message (given that the
decoder and publisher oracles report nonempty error messages). -/
theorem postUpdate_contract_aux (jobID : String)
    (dec1 : Except String MessagePost) (pubRes recRes : Nat → Option String)
    (hdec : ∀ e, dec1 = Except.error e → e ≠ "")
    (hpub : ∀ n e, pubRes n = some e → e ≠ "")
    (hrec : ∀ n e, recRes n = some e → e ≠ "") :
    ((postUpdate jobID dec1 pubRes recRes).status = 400 ∧
      ∃ e, (postUpdate jobID dec1 pubRes recRes).body =
        ResponseBody.errorField e ∧ e ≠ "") ∨
    ((postUpdate jobID dec1 pubRes recRes).status = 200 ∧
      ∃ m, (postUpdate jobID dec1 pubRes recRes).body =
        ResponseBody.updateEcho m) := by
  cases dec1 with
  | error e => exact Or.inl ⟨rfl, e, rfl, hdec e rfl⟩
  | ok um =>
      cases hst : getState um.State with
      | error e =>
          refine Or.inl ⟨?_, e, ?_, getState_error_ne_empty um.State e hst⟩ <;>
            simp [postUpdate, hst]
      | ok st =>
          cases hupd : update pubRes recRes st jobID um.Hostname um.Message with
          | mk res tr =>
              cases res with
              | error e =>
                  refine Or.inl ⟨?_, e, ?_, ?_⟩
                  · simp [postUpdate, hst, hupd]
                  · simp [postUpdate, hst, hupd]
                  · have horig := update_error_origin pubRes recRes st jobID
                      um.Hostname um.Message e (by rw [hupd])
                    rcases horig with ⟨n, hn⟩ | ⟨n, hn⟩
                    · exact hpub n e hn
                    · exact hrec n e hn
              | ok m =>
                  refine Or.inr ⟨?_, m, ?_⟩ <;> simp [postUpdate, hst, hupd]

/-- Response contract of `postBatchStatus`: same shape as for
`postUpdate`. -/
theorem postBatchStatus_contract_aux
    (dec2 : Except String MessagePostWithUUIDs)
    (pubRes recRes : Nat → Option String)
    (hdec : ∀ e, dec2 = Except.error e → e ≠ "")
    (hpub : ∀ n e, pubRes n = some e → e ≠ "")
    (hrec : ∀ n e, recRes n = some e → e ≠ "") :
    ((postBatchStatus dec2 pubRes recRes).status = 400 ∧
      ∃ e, (postBatchStatus dec2 pubRes recRes).body =
        ResponseBody.errorField e ∧ e ≠ "") ∨
    ((postBatchStatus dec2 pubRes recRes).status = 200 ∧
      ∃ m, (postBatchStatus dec2 pubRes recRes).body =
        ResponseBody.updateEcho m) := by
  cases dec2 with
  | error e => exact Or.inl ⟨rfl, e, rfl, hdec e rfl⟩
  | ok um =>
      cases hst : getState um.State with
      | error e =>
          refine Or.inl ⟨?_, e, ?_, getState_error_ne_empty um.State e hst⟩ <;>
            simp [postBatchStatus, hst]
      | ok st =>
          cases hupd : update pubRes recRes st um.JobUUID um.Hostname um.Message with
          | mk res tr =>
              cases res with
              | error e =>
                  refine Or.inl ⟨?_, e, ?_, ?_⟩
                  · simp [postBatchStatus, hst, hupd]
                  · simp [postBatchStatus, hst, hupd]
                  · have horig := update_error_origin pubRes recRes st um.JobUUID
                      um.Hostname um.Message e (by rw [hupd])
                    rcases horig with ⟨n, hn⟩ | ⟨n, hn⟩
                    · exact hpub n e hn
                    · exact hrec n e hn
              | ok m =>
                  refine Or.inr ⟨?_, m, ?_⟩ <;> simp [postBatchStatus, hst, hupd]

/-- C8: on either endpoint every failing request (decode error, unknown
state, or terminal publish failure) is answered with status 400 and a
body consisting of a single nonempty error field, and every other request
with status 200 echoing the message; in particular no path produces a 5xx
status.  The oracle error messages are assumed nonempty, as Go error
strings are in practice. -/
theorem handlers_response_contract (jobID : String)
    (dec1 : Except String MessagePost)
    (dec2 : Except String MessagePostWithUUIDs)
    (pubRes recRes : Nat → Option String)
    (hdec1 : ∀ e, dec1 = Except.error e → e ≠ "")
    (hdec2 : ∀ e, dec2 = Except.error e → e ≠ "")
    (hpub : ∀ n e, pubRes n = some e → e ≠ "")
    (hrec : ∀ n e, recRes n = some e → e ≠ "") :
    (((postUpdate jobID dec1 pubRes recRes).status = 400 ∧
        ∃ e, (postUpdate jobID dec1 pubRes recRes).body =
          ResponseBody.errorField e ∧ e ≠ "") ∨
      ((postUpdate jobID dec1 pubRes recRes).status = 200 ∧
        ∃ m, (postUpdate jobID dec1 pubRes recRes).body =
          ResponseBody.updateEcho m)) ∧
    (((postBatchStatus dec2 pubRes recRes).status = 400 ∧
        ∃ e, (postBatchStatus dec2 pubRes recRes).body =
          ResponseBody.errorField e ∧ e ≠ "") ∨
      ((postBatchStatus dec2 pubRes recRes).status = 200 ∧
        ∃ m, (postBatchStatus dec2 pubRes recRes).body =
          ResponseBody.updateEcho m)) :=
  ⟨postUpdate_contract_aux jobID dec1 pubRes recRes hdec1 hpub hrec,
    postBatchStatus_contract_aux dec2 pubRes recRes hdec2 hpub hrec⟩

/-- Witness for C8 at concrete failing requests: a decode error on the
single-update endpoint and a double publish failure on the batch
endpoint. -/
theorem handlers_response_contract_witness :
    (((postUpdate "11111111-1111-1111-1111-111111111111"
          (Except.error "bad json") (fun _ => some "boom")
          (fun _ => some "down")).status = 400 ∧
        ∃ e, (postUpdate "11111111-1111-1111-1111-111111111111"
          (Except.error "bad json") (fun _ => some "boom")
          (fun _ => some "down")).body = ResponseBody.errorField e ∧ e ≠ "") ∨
      ((postUpdate "11111111-1111-1111-1111-111111111111"
          (Except.error "bad json") (fun _ => some "boom")
          (fun _ => some "down")).status = 200 ∧
        ∃ m, (postUpdate "11111111-1111-1111-1111-111111111111"
          (Except.error "bad json") (fun _ => some "boom")
          (fun _ => some "down")).body = ResponseBody.updateEcho m)) ∧
    (((postBatchStatus (Except.ok ⟨"u1", "h1", "m1", "running"⟩)
          (fun _ => some "boom") (fun _ => some "down")).status = 400 ∧
        ∃ e, (postBatchStatus (Except.ok ⟨"u1", "h1", "m1", "running"⟩)
          (fun _ => some "boom") (fun _ => some "down")).body =
          ResponseBody.errorField e ∧ e ≠ "") ∨
      ((postBatchStatus (Except.ok ⟨"u1", "h1", "m1", "running"⟩)
          (fun _ => some "boom") (fun _ => some "down")).status = 200 ∧
        ∃ m, (postBatchStatus (Except.ok ⟨"u1", "h1", "m1", "running"⟩)
          (fun _ => some "boom") (fun _ => some "down")).body =
          ResponseBody.updateEcho m)) :=
  handlers_response_contract "11111111-1111-1111-1111-111111111111"
    (Except.error "bad json") (Except.ok ⟨"u1", "h1", "m1", "running"⟩)
    (fun _ => some "boom") (fun _ => some "down")
    (fun e he => by injection he with h2; subst h2; decide)
    (fun e he => by injection he)
    (fun n e he => by injection he with h2; subst h2; decide)
    (fun n e he => by injection he with h2; subst h2; decide)

/-- C10: for every well-formed batch body whose state is recognized, the
`job_uuid` field is passed verbatim as the invocation ID of every message
handed to publish — no UUID-pattern validation is applied, so any string
is accepted, including the empty string a Go decoder produces when the
field is absent. -/
theorem postBatchStatus_jobuuid_verbatim (um : MessagePostWithUUIDs)
    (pubRes recRes : Nat → Option String) (st : JobState)
    (hst : getState um.State = Except.ok st)
    (m : UpdateMessage) (r : Option String)
    (hm : Event.publish m r ∈
      (postBatchStatus (Except.ok um) pubRes recRes).events) :
    m.invocationID = um.JobUUID := by
  have hb : (postBatchStatus (Except.ok um) pubRes recRes).events =
      (update pubRes recRes st um.JobUUID um.Hostname um.Message).2 := by
    cases hupd : update pubRes recRes st um.JobUUID um.Hostname um.Message with
    | mk res tr =>
        cases res <;> simp [postBatchStatus, hst, hupd]
  rw [hb] at hm
  have heq := update_message_integrity pubRes recRes st um.JobUUID
    um.Hostname um.Message m r hm
  rw [heq]

/-- Witness for C10: a batch body whose `job_uuid` is the empty string
(the zero value Go decodes for an absent field) is accepted end to end,
the handler answers 200, and the published message carries the empty
invocation ID. -/
theorem postBatchStatus_jobuuid_verbatim_witness :
    getState (⟨"", "h1", "m1", "running"⟩ : MessagePostWithUUIDs).State =
      Except.ok JobState.Running ∧
    Event.publish (⟨"", JobState.Running, "m1", "h1"⟩ : UpdateMessage) none ∈
      (postBatchStatus (Except.ok ⟨"", "h1", "m1", "running"⟩)
        (fun _ => none) (fun _ => none)).events ∧
    (⟨"", JobState.Running, "m1", "h1"⟩ : UpdateMessage).invocationID =
      (⟨"", "h1", "m1", "running"⟩ : MessagePostWithUUIDs).JobUUID ∧
    (postBatchStatus (Except.ok ⟨"", "h1", "m1", "running"⟩)
      (fun _ => none) (fun _ => none)).status = 200 :=
  ⟨by rfl,
    by simp [postBatchStatus, getState, strToLower, update],
    postBatchStatus_jobuuid_verbatim ⟨"", "h1", "m1", "running"⟩
      (fun _ => none) (fun _ => none) JobState.Running (by rfl)
      (⟨"", JobState.Running, "m1", "h1"⟩ : UpdateMessage) none
      (by simp [postBatchStatus, getState, strToLower, update]),
    by rfl⟩
